import Mathlib

/-!
Shallow embedding of the idempotent ingestion gateway of
`real-time-tx-monitoring` (Go): the HTTP middleware stack
(idempotency, auth, role checks), the single and batch transaction
handlers, the Kafka publisher's message construction, and the
transaction-ID generator, translated from
`apps/ingestion-service/main.go`,
`apps/ingestion-service/internal/middleware/idempotency.go`,
`apps/ingestion-service/internal/middleware/auth.go`,
`internal/publisher` (Producer.Publish / PublishBatch),
`internal/redis` (Get/SetIdempotencyKey) and `internal/models`.

External effects are made explicit: the Redis idempotency store is an
association list, the Kafka log is a list of messages, and the three
fallible external calls (store lookup, store write, broker publish) are
driven by boolean failure flags in an environment record.  `time.Now()`
samples are passed in as explicit `GoTime` values (the Go code samples
the wall clock; each sample is an input here).
-/

namespace TxMon

/-- A wall-clock sample (`time.Now()`), reduced to the calendar fields
that the gateway's format layout `"20060102150405.000000000"` prints. -/
structure GoTime where
  year : Nat
  month : Nat
  day : Nat
  hour : Nat
  minute : Nat
  second : Nat
  nanosecond : Nat
deriving DecidableEq

/-- Field ranges of a real `time.Time` as relevant to the fixed-width
format: each printed field fits its column width (Go pads but does not
truncate; for years below 10000 the printed year is exactly 4 digits). -/
def GoTime.Valid (t : GoTime) : Prop :=
  t.year < 10000 ∧ 1 ≤ t.month ∧ t.month ≤ 12 ∧ 1 ≤ t.day ∧ t.day ≤ 31 ∧
    t.hour < 24 ∧ t.minute < 60 ∧ t.second < 60 ∧ t.nanosecond < 1000000000

instance (t : GoTime) : Decidable t.Valid := by
  unfold GoTime.Valid; infer_instance

/-- Chronological order of two wall-clock samples: lexicographic on the
calendar fields, most significant first. -/
def GoTime.Earlier (a b : GoTime) : Prop :=
  a.year < b.year ∨ (a.year = b.year ∧
    (a.month < b.month ∨ (a.month = b.month ∧
      (a.day < b.day ∨ (a.day = b.day ∧
        (a.hour < b.hour ∨ (a.hour = b.hour ∧
          (a.minute < b.minute ∨ (a.minute = b.minute ∧
            (a.second < b.second ∨ (a.second = b.second ∧
              a.nanosecond < b.nanosecond)))))))))))

instance (a b : GoTime) : Decidable (a.Earlier b) := by
  unfold GoTime.Earlier; infer_instance

/-- The ASCII digit for `d % 10` (what Go's zero-padded `%0*d` emits
per position). -/
def digitChar (d : Nat) : Char := Char.ofNat (48 + d % 10)

/-- Fixed-width zero-padded decimal rendering, most significant digit
first, as emitted by Go's `time.Format` for a field of width `w`
(faithful whenever the value fits in `w` digits, which `GoTime.Valid`
guarantees for every field). -/
def padDigits : Nat → Nat → List Char
  | 0, _ => []
  | w + 1, n => padDigits w (n / 10) ++ [digitChar n]

/-- Character content of `t.Format("20060102150405.000000000")`. -/
def formatChars (t : GoTime) : List Char :=
  padDigits 4 t.year ++ (padDigits 2 t.month ++ (padDigits 2 t.day ++
    (padDigits 2 t.hour ++ (padDigits 2 t.minute ++ (padDigits 2 t.second ++
      (Char.ofNat 46 :: padDigits 9 t.nanosecond))))))

/-- `time.Now().Format("20060102150405.000000000")`. -/
def formatTimestamp (t : GoTime) : String := String.mk (formatChars t)

/-- `generateTransactionID` from `apps/ingestion-service/main.go`:
`"txn_" + time.Now().Format("20060102150405.000000000")` — a pure
function of the sampled wall clock, with no entropy component. -/
def generateTransactionID (t : GoTime) : String :=
  "txn_" ++ formatTimestamp t

/-- JWT claims (`internal/auth.Claims`): the registered-claims part is
consumed by token validation, which is modelled as the `auth` field of
the request (see `HttpRequest`). -/
structure AuthClaims where
  user_id : String
  account_id : String
  roles : List String
deriving DecidableEq

/-- `Claims.HasRole`: linear scan of the role list. -/
def AuthClaims.HasRole (c : AuthClaims) (role : String) : Bool :=
  c.roles.contains role

/-- `Claims.HasAnyRole`: any of the requested roles is held. -/
def AuthClaims.HasAnyRole (c : AuthClaims) (roles : List String) : Bool :=
  roles.any c.HasRole

/-- `models.TransactionRequest`, the decoded JSON body of a submission.
`Amount` is a Go `float64` used only by copy in the gateway (never
computed with), so it is embedded as an integer-valued quantity `Int`;
the `binding:"required,gt=0"` struct tags are gin validator tags and are
dead under `encoding/json`, hence not part of the behaviour. -/
structure TransactionRequest where
  idempotency_key : String
  account_id : String
  user_id : String
  amount : Int
  currency : String
  txnType : String
  category : String
  merchant : String
  reference : String
  metadata : List (String × String)
deriving DecidableEq

/-- `models.Transaction`, the event payload published to Kafka. -/
structure Transaction where
  id : String
  idempotency_key : String
  account_id : String
  user_id : String
  amount : Int
  currency : String
  txnType : String
  category : String
  merchant : String
  reference : String
  status : String
  timestamp : GoTime
  metadata : List (String × String)
deriving DecidableEq

/-- `models.TransactionResponse`, both the handler's success body and
the value cached in the idempotency store. -/
structure TransactionResponse where
  id : String
  status : String
  message : String
  timestamp : GoTime
deriving DecidableEq

/-- A Kafka message as built by `Producer.Publish` / `PublishBatch`:
the payload is kept as the structured transaction (its JSON encoding in
Go is injective on these fields). -/
structure KafkaMessage where
  topic : String
  key : String
  value : Transaction
  headers : List (String × String)
deriving DecidableEq

/-- Message construction shared by `Producer.Publish` and
`Producer.PublishBatch`: `Key` is `transaction.AccountID` ("Partition
by account ID"), headers carry idempotency key / user / currency / type. -/
def publishMessage (topic : String) (txn : Transaction) : KafkaMessage :=
  { topic := topic
    key := txn.account_id
    value := txn
    headers :=
      [("idempotency_key", txn.idempotency_key), ("user_id", txn.user_id),
        ("currency", txn.currency), ("type", txn.txnType)] }

/-- The body the gateway writes with a response.  The idempotency
middleware later re-parses the body it recorded: `json.Unmarshal` into a
map succeeds exactly for the JSON-object bodies (`jsonResp`,
`batchJson`), and only `jsonResp` carries an `"id"` field.  `plainText`
is the body written by `http.Error`. -/
inductive ResponseBody where
  | jsonResp (r : TransactionResponse)
  | batchJson (count : Nat) (timestamp : GoTime)
  | plainText (msg : String)
deriving DecidableEq

/-- The middleware's ID extraction from a recorded body:
`json.Unmarshal(recorder.body, &txnResponse)` followed by
`txnResponse["id"].(string)`. -/
def extractID : ResponseBody → Option String
  | .jsonResp r => some r.id
  | .batchJson _ _ => none
  | .plainText _ => none

/-- An HTTP response as observed by the client: status code, the headers
set by the gateway, and the body. -/
structure HttpResponse where
  statusCode : Nat
  headers : List (String × String)
  body : ResponseBody
deriving DecidableEq

/-- `http.Error(w, msg, code)`. -/
def httpError (msg : String) (code : Nat) : HttpResponse :=
  { statusCode := code
    headers := [("Content-Type", "text/plain; charset=utf-8")]
    body := .plainText msg }

/-- The Redis idempotency namespace: an association list from full Redis
key to the cached `TransactionResponse` (the stored JSON decodes back to
the value that was written). -/
def IdempotencyStore : Type := List (String × TransactionResponse)

instance : DecidableEq IdempotencyStore := by
  unfold IdempotencyStore; infer_instance

/-- `redis.Client.GetIdempotencyKey`: `GET "idempotency:"+key`,
`redis.Nil` mapped to absence. -/
def getIdempotencyKey (store : IdempotencyStore) (key : String) :
    Option TransactionResponse :=
  (List.find? (fun kv => kv.1 == "idempotency:" ++ key) store).map (fun kv => kv.2)

/-- `redis.Client.SetIdempotencyKey`: `SET "idempotency:"+key value`,
overwriting any previous value (the 24h TTL is enforced by Redis, not by
the gateway, and is outside this state). -/
def setIdempotencyKey (store : IdempotencyStore) (key : String)
    (value : TransactionResponse) : IdempotencyStore :=
  ("idempotency:" ++ key, value) ::
    List.filter (fun kv => kv.1 != "idempotency:" ++ key) store

/-- Failure injection for the three fallible external calls. -/
structure Env where
  lookupFails : Bool
  cacheWriteFails : Bool
  publishFails : Bool
deriving DecidableEq

/-- An inbound HTTP request after transport decoding:
`idempotencyKeyHeader` is `r.Header.Get("Idempotency-Key")` (empty when
absent); `auth` is the combined result of `ExtractTokenFromHeader` +
`ValidateToken` (`none` for a missing or invalid token); `singleBody` /
`batchBody` are the results of `json.NewDecoder(r.Body).Decode` into a
`TransactionRequest` resp. `[]TransactionRequest` (`none` = decode
error).  Each route reads only its own body field. -/
structure HttpRequest where
  idempotencyKeyHeader : String
  auth : Option AuthClaims
  singleBody : Option TransactionRequest
  batchBody : Option (List TransactionRequest)
deriving DecidableEq

/-- An inner HTTP handler: consumes the request and the Kafka log,
produces the response and the (possibly extended) log.  Inner handlers
never touch the idempotency store; only the idempotency middleware does. -/
def Handler : Type := HttpRequest → List KafkaMessage → HttpResponse × List KafkaMessage

/-- `AuthMiddleware.RequireAuth`: 401 when token extraction or
validation fails, otherwise the claims are attached to the context. -/
def requireAuth (next : Handler) : Handler := fun req log =>
  match req.auth with
  | none => (httpError "Authentication required" 401, log)
  | some _ => next req log

/-- `AuthMiddleware.RequireRole role`: 401 without claims in context,
403 without the role. -/
def requireRole (role : String) (next : Handler) : Handler := fun req log =>
  match req.auth with
  | none => (httpError "Authentication required" 401, log)
  | some claims =>
    if claims.HasRole role then next req log
    else (httpError "Insufficient permissions" 403, log)

/-- `AuthMiddleware.RequireAnyRole roles`. -/
def requireAnyRole (roles : List String) (next : Handler) : Handler := fun req log =>
  match req.auth with
  | none => (httpError "Authentication required" 401, log)
  | some claims =>
    if claims.HasAnyRole roles then next req log
    else (httpError "Insufficient permissions" 403, log)

/-- Build a `models.Transaction` from a request body the way both
handlers do: fresh generated ID, caller fields copied, status
`"pending"`, server timestamp. -/
def buildTransaction (now : GoTime) (r : TransactionRequest) : Transaction :=
  { id := generateTransactionID now
    idempotency_key := r.idempotency_key
    account_id := r.account_id
    user_id := r.user_id
    amount := r.amount
    currency := r.currency
    txnType := r.txnType
    category := r.category
    merchant := r.merchant
    reference := r.reference
    status := "pending"
    timestamp := now
    metadata := r.metadata }

/-- `IngestTransactionHandler`: decode, check the three string fields
are non-empty (amount is not inspected), build the transaction, publish
via `Producer.Publish`, answer 202 with `TransactionResponse`.  `now`
stands for the `time.Now()` samples taken while serving this request. -/
def ingestTransactionHandler (publishFails : Bool) (topic : String)
    (now : GoTime) : Handler := fun req log =>
  match req.singleBody with
  | none => (httpError "invalid JSON payload" 400, log)
  | some r =>
    if r.idempotency_key == "" || r.account_id == "" || r.user_id == "" then
      (httpError "missing required fields" 400, log)
    else
      let txn := buildTransaction now r
      if publishFails then
        (httpError "failed to enqueue transaction" 500, log)
      else
        ({ statusCode := 202
           headers := [("Content-Type", "application/json")]
           body := .jsonResp
             { id := txn.id
               status := "accepted"
               message := "Transaction queued for processing"
               timestamp := now } },
          log ++ [publishMessage topic txn])

/-- The `for i, req := range reqs` conversion loop of
`IngestBatchTransactionHandler`: item `i` samples the clock at index
`base + i` for its generated ID and timestamp. -/
def buildTransactions (clock : Nat → GoTime) :
    Nat → List TransactionRequest → List Transaction
  | _, [] => []
  | i, r :: rs => buildTransaction (clock i) r :: buildTransactions clock (i + 1) rs

/-- `IngestBatchTransactionHandler`: decode a list, reject only an
undecodable or empty list, convert every item with no per-item
validation, publish the whole batch via `Producer.PublishBatch`, answer
202 with an overall count only. -/
def ingestBatchTransactionHandler (publishFails : Bool) (topic : String)
    (clock : Nat → GoTime) : Handler := fun req log =>
  match req.batchBody with
  | none => (httpError "invalid JSON payload" 400, log)
  | some reqs =>
    if reqs.length == 0 then
      (httpError "empty batch" 400, log)
    else
      let transactions := buildTransactions clock 0 reqs
      if publishFails then
        (httpError "failed to enqueue batch" 500, log)
      else
        ({ statusCode := 202
           headers := [("Content-Type", "application/json")]
           body := .batchJson transactions.length (clock reqs.length) },
          log ++ transactions.map (publishMessage topic))

/-- One request's worth of externally visible effects. -/
structure Outcome where
  response : HttpResponse
  store : IdempotencyStore
  log : List KafkaMessage
deriving DecidableEq

/-- `IdempotencyMiddleware.Wrap`: require the `Idempotency-Key` header;
look the key up (a lookup error is logged and treated as absence); on a
hit replay the cached response with `X-Idempotency-Cache: true` and
status 200; on a miss run the wrapped handler and, when its recorded
status is 2xx, cache a `TransactionResponse` whose ID is scraped from
the recorded body and whose status is the fixed string `"success"` (a
cache-write error is logged and ignored; the response already went out
through the recorder either way). -/
def idempotencyWrap (lookupFails cacheWriteFails : Bool) (cacheNow : GoTime)
    (next : Handler) (req : HttpRequest) (store : IdempotencyStore)
    (log : List KafkaMessage) : Outcome :=
  let key := req.idempotencyKeyHeader
  if key == "" then
    { response := httpError "Idempotency-Key header required" 400
      store := store, log := log }
  else
    match (if lookupFails then none else getIdempotencyKey store key) with
    | some cachedResponse =>
      { response :=
          { statusCode := 200
            headers :=
              [("Content-Type", "application/json"), ("X-Idempotency-Cache", "true")]
            body := .jsonResp cachedResponse }
        store := store, log := log }
    | none =>
      let result := next req log
      if 200 ≤ result.1.statusCode && result.1.statusCode < 300 then
        let cacheEntry : TransactionResponse :=
          { id := (extractID result.1.body).getD ""
            status := "success"
            message := "Transaction processed"
            timestamp := cacheNow }
        { response := result.1
          store :=
            if cacheWriteFails then store else setIdempotencyKey store key cacheEntry
          log := result.2 }
      else
        { response := result.1, store := store, log := result.2 }

/-- The `POST /api/v1/transactions` route as wired in `main`:
`metrics(idempotency(RequireAuth(RequireAnyRole("teller","admin")(IngestTransactionHandler))))`
— the metrics wrapper only counts, so it is dropped; note the
idempotency middleware is OUTSIDE the auth middlewares. -/
def handleSingle (env : Env) (topic : String) (now : GoTime) (req : HttpRequest)
    (store : IdempotencyStore) (log : List KafkaMessage) : Outcome :=
  idempotencyWrap env.lookupFails env.cacheWriteFails now
    (requireAuth (requireAnyRole ["teller", "admin"]
      (ingestTransactionHandler env.publishFails topic now))) req store log

/-- The `POST /api/v1/transactions/batch` route as wired in `main`:
`metrics(idempotency(RequireAuth(RequireRole("admin")(IngestBatchTransactionHandler))))`. -/
def handleBatch (env : Env) (topic : String) (clock : Nat → GoTime)
    (req : HttpRequest) (store : IdempotencyStore) (log : List KafkaMessage) :
    Outcome :=
  idempotencyWrap env.lookupFails env.cacheWriteFails (clock 0)
    (requireAuth (requireRole "admin"
      (ingestBatchTransactionHandler env.publishFails topic clock))) req store log

/-- The canonical 202 response of a fresh acceptance. -/
def acceptedResponse (now : GoTime) : HttpResponse :=
  { statusCode := 202
    headers := [("Content-Type", "application/json")]
    body := .jsonResp
      { id := generateTransactionID now
        status := "accepted"
        message := "Transaction queued for processing"
        timestamp := now } }

/-- The record the middleware caches after a 2xx single-submission
response: ID scraped from the body, status hardcoded `"success"`. -/
def cachedRecord (now : GoTime) : TransactionResponse :=
  { id := generateTransactionID now
    status := "success"
    message := "Transaction processed"
    timestamp := now }

/-! ### Concrete fixtures used by witnesses and counterexamples -/

/-- All three external collaborators healthy. -/
def healthyEnv : Env := ⟨false, false, false⟩

def sampleTime : GoTime := ⟨2025, 3, 14, 9, 26, 53, 589793238⟩

def sampleTime2 : GoTime := ⟨2025, 3, 14, 9, 26, 54, 100000000⟩

def sampleBody : TransactionRequest :=
  ⟨"k1", "A", "U", 50, "USD", "purchase", "", "", "", []⟩

def tellerClaims : AuthClaims := ⟨"U", "A", ["teller"]⟩

def viewerClaims : AuthClaims := ⟨"U", "A", ["viewer"]⟩

def adminClaims : AuthClaims := ⟨"U", "A", ["admin"]⟩

def sampleReq : HttpRequest := ⟨"k1", some tellerClaims, some sampleBody, none⟩

/-- A store already holding a record under the submission's key. -/
def storeWithK1 : IdempotencyStore :=
  [("idempotency:k1",
    ⟨"txn_20250314092653.589793238", "success", "Transaction processed",
      sampleTime⟩)]

/-- A decoded submission body with a negative amount and all string
fields present. -/
def negBody : TransactionRequest :=
  ⟨"k2", "A", "U", -5, "USD", "purchase", "", "", "", []⟩

def batchItem1 : TransactionRequest :=
  ⟨"bk1", "A", "U", 25, "USD", "purchase", "", "", "", []⟩

def batchItem3 : TransactionRequest :=
  ⟨"bk3", "B", "U", 75, "USD", "purchase", "", "", "", []⟩

/-- A batch request of three items whose second item has amount = -5. -/
def batchReq : HttpRequest :=
  ⟨"kb", some adminClaims, none, some [batchItem1, negBody, batchItem3]⟩

/-- A store holding only a record for an unrelated key. -/
def storeOther : IdempotencyStore :=
  [("idempotency:zz",
    ⟨"txn_20250314092653.589793238", "success", "Transaction processed",
      sampleTime⟩)]

/-! ### Properties of the transaction-ID format -/

theorem padDigits_length : ∀ (w n : Nat), (padDigits w n).length = w
  | 0, _ => rfl
  | w + 1, n => by simp [padDigits, padDigits_length w]

theorem digitChar_lt {a b : Nat} (h : a % 10 < b % 10) :
    digitChar a < digitChar b := by
  have key : ∀ x y : Fin 10, x.val < y.val →
      Char.ofNat (48 + x.val) < Char.ofNat (48 + y.val) := by decide
  have ha10 : a % 10 < 10 := Nat.mod_lt _ (by norm_num)
  have hb10 : b % 10 < 10 := Nat.mod_lt _ (by norm_num)
  exact key ⟨a % 10, ha10⟩ ⟨b % 10, hb10⟩ h

/-- Lexicographic comparison of equal-length blocks survives appending
arbitrary tails. -/
theorem lex_append_blocks :
    ∀ (a c : List Char), a.length = c.length → List.Lex (· < ·) a c →
      ∀ (b d : List Char), List.Lex (· < ·) (a ++ b) (c ++ d)
  | [], _, h, hlex, _, _ => by cases hlex; simp_all
  | _ :: _, [], _, hlex, _, _ => by cases hlex
  | x :: xs, y :: ys, h, hlex, b, d => by
    cases hlex with
    | cons htail =>
      exact List.Lex.cons (lex_append_blocks xs ys (by simpa using h) htail b d)
    | rel hr => exact List.Lex.rel hr

/-- Numeric order of values that fit the width agrees with
lexicographic order of their zero-padded renderings. -/
theorem padDigits_lt : ∀ (w n1 n2 : Nat), n1 < n2 → n2 < 10 ^ w →
    List.Lex (· < ·) (padDigits w n1) (padDigits w n2)
  | 0, _, _, h12, h2 => by omega
  | w + 1, n1, n2, h12, h2 => by
    have hq : n1 / 10 ≤ n2 / 10 := Nat.div_le_div_right (le_of_lt h12)
    rcases lt_or_eq_of_le hq with hlt | heq
    · have hbound : n2 / 10 < 10 ^ w := by
        rw [Nat.div_lt_iff_lt_mul (by norm_num)]
        calc n2 < 10 ^ (w + 1) := h2
          _ = 10 ^ w * 10 := by ring
      exact lex_append_blocks _ _ (by simp [padDigits_length])
        (padDigits_lt w _ _ hlt hbound) _ _
    · have hm : n1 % 10 < n2 % 10 := by
        have e1 := Nat.div_add_mod n1 10
        have e2 := Nat.div_add_mod n2 10
        omega
      show List.Lex (· < ·) (padDigits w (n1 / 10) ++ [digitChar n1])
        (padDigits w (n2 / 10) ++ [digitChar n2])
      rw [heq]
      exact List.Lex.append_left _ (List.Lex.rel (digitChar_lt hm)) _

/-- Chronologically earlier valid wall-clock samples format to
lexicographically smaller character lists. -/
theorem formatChars_lt {t1 t2 : GoTime} (h2 : t2.Valid) (h : t1.Earlier t2) :
    List.Lex (· < ·) (formatChars t1) (formatChars t2) := by
  obtain ⟨hy, _, hmo, _, hd, hh, hmi, hs, hns⟩ := h2
  unfold formatChars
  rcases h with hlt | ⟨ey, h⟩
  · exact lex_append_blocks _ _ (by simp [padDigits_length])
      (padDigits_lt 4 _ _ hlt (by omega)) _ _
  rw [ey]
  refine List.Lex.append_left _ ?_ _
  rcases h with hlt | ⟨emo, h⟩
  · exact lex_append_blocks _ _ (by simp [padDigits_length])
      (padDigits_lt 2 _ _ hlt (by omega)) _ _
  rw [emo]
  refine List.Lex.append_left _ ?_ _
  rcases h with hlt | ⟨ed, h⟩
  · exact lex_append_blocks _ _ (by simp [padDigits_length])
      (padDigits_lt 2 _ _ hlt (by omega)) _ _
  rw [ed]
  refine List.Lex.append_left _ ?_ _
  rcases h with hlt | ⟨eh, h⟩
  · exact lex_append_blocks _ _ (by simp [padDigits_length])
      (padDigits_lt 2 _ _ hlt (by omega)) _ _
  rw [eh]
  refine List.Lex.append_left _ ?_ _
  rcases h with hlt | ⟨emi, h⟩
  · exact lex_append_blocks _ _ (by simp [padDigits_length])
      (padDigits_lt 2 _ _ hlt (by omega)) _ _
  rw [emi]
  refine List.Lex.append_left _ ?_ _
  rcases h with hlt | ⟨es, h⟩
  · exact lex_append_blocks _ _ (by simp [padDigits_length])
      (padDigits_lt 2 _ _ hlt (by omega)) _ _
  rw [es]
  refine List.Lex.append_left _ ?_ _
  exact List.Lex.cons (padDigits_lt 9 _ _ h (by omega))

/-- `generateTransactionID` is strictly increasing (in string order) in
the sampled wall clock, over valid samples. -/
theorem generateTransactionID_lt {t1 t2 : GoTime} (h2 : t2.Valid)
    (h : t1.Earlier t2) :
    generateTransactionID t1 < generateTransactionID t2 := by
  rw [String.lt_iff_toList_lt]
  show List.Lex (· < ·) (generateTransactionID t1).toList
    (generateTransactionID t2).toList
  have e1 : (generateTransactionID t1).toList =
      ['t', 'x', 'n', '_'] ++ formatChars t1 := rfl
  have e2 : (generateTransactionID t2).toList =
      ['t', 'x', 'n', '_'] ++ formatChars t2 := rfl
  rw [e1, e2]
  exact List.Lex.append_left _ (formatChars_lt h2 h) _

/-! ### Behaviour of the store and of the request pipelines -/

theorem getIdempotencyKey_set (store : IdempotencyStore) (key : String)
    (v : TransactionResponse) :
    getIdempotencyKey (setIdempotencyKey store key v) key = some v := by
  simp [getIdempotencyKey, setIdempotencyKey]

/-- Fresh valid single submission (healthy lookup and publish, cache
write controlled by `cw`): publishes once, answers 202, and caches a
`"success"` record exactly when the cache write does not fail. -/
theorem handleSingle_fresh (cw : Bool) (topic : String) (now : GoTime)
    (req : HttpRequest) (store : IdempotencyStore) (log : List KafkaMessage)
    (claims : AuthClaims) (r : TransactionRequest)
    (hkey : (req.idempotencyKeyHeader == "") = false)
    (hmiss : getIdempotencyKey store req.idempotencyKeyHeader = none)
    (hauth : req.auth = some claims)
    (hrole : claims.HasAnyRole ["teller", "admin"] = true)
    (hbody : req.singleBody = some r)
    (hk : (r.idempotency_key == "") = false)
    (ha : (r.account_id == "") = false)
    (hu : (r.user_id == "") = false) :
    handleSingle ⟨false, cw, false⟩ topic now req store log =
      { response := acceptedResponse now
        store :=
          if cw then store
          else setIdempotencyKey store req.idempotencyKeyHeader (cachedRecord now)
        log := log ++ [publishMessage topic (buildTransaction now r)] } := by
  simp only [handleSingle, idempotencyWrap, requireAuth, requireAnyRole,
    ingestTransactionHandler, hkey, hmiss, hauth, hrole, hbody, hk, ha, hu,
    Bool.false_eq_true, if_false, Bool.or_self, Bool.false_or, if_true,
    acceptedResponse, cachedRecord, extractID]
  rfl

/-- Cache hit (healthy lookup): the cached record is replayed verbatim
with status 200 and the `X-Idempotency-Cache` marker, and neither the
store nor the log changes. -/
theorem handleSingle_hit (cw p : Bool) (topic : String) (now : GoTime)
    (req : HttpRequest) (store : IdempotencyStore) (log : List KafkaMessage)
    (rec : TransactionResponse)
    (hkey : (req.idempotencyKeyHeader == "") = false)
    (hhit : getIdempotencyKey store req.idempotencyKeyHeader = some rec) :
    handleSingle ⟨false, cw, p⟩ topic now req store log =
      { response :=
          { statusCode := 200
            headers :=
              [("Content-Type", "application/json"), ("X-Idempotency-Cache", "true")]
            body := .jsonResp rec }
        store := store
        log := log } := by
  simp only [handleSingle, idempotencyWrap, hkey, hhit, Bool.false_eq_true,
    if_false]

/-- Cache miss, valid auth/role, lacking required roles: 403 with no
store write and no publish (the lookup has already happened). -/
theorem handleSingle_forbidden (cw p : Bool) (topic : String) (now : GoTime)
    (req : HttpRequest) (store : IdempotencyStore) (log : List KafkaMessage)
    (claims : AuthClaims)
    (hkey : (req.idempotencyKeyHeader == "") = false)
    (hmiss : getIdempotencyKey store req.idempotencyKeyHeader = none)
    (hauth : req.auth = some claims)
    (hrole : claims.HasAnyRole ["teller", "admin"] = false) :
    handleSingle ⟨false, cw, p⟩ topic now req store log =
      { response := httpError "Insufficient permissions" 403
        store := store
        log := log } := by
  simp only [handleSingle, idempotencyWrap, requireAuth, requireAnyRole, hkey,
    hmiss, hauth, hrole, Bool.false_eq_true, if_false, httpError]
  rfl

/-- Cache miss, valid role, decoded body with a missing required string
field: 400 with no store write and no publish. -/
theorem handleSingle_missingField (cw p : Bool) (topic : String) (now : GoTime)
    (req : HttpRequest) (store : IdempotencyStore) (log : List KafkaMessage)
    (claims : AuthClaims) (r : TransactionRequest)
    (hkey : (req.idempotencyKeyHeader == "") = false)
    (hmiss : getIdempotencyKey store req.idempotencyKeyHeader = none)
    (hauth : req.auth = some claims)
    (hrole : claims.HasAnyRole ["teller", "admin"] = true)
    (hbody : req.singleBody = some r)
    (hfield : (r.idempotency_key == "" || r.account_id == "" || r.user_id == "")
      = true) :
    handleSingle ⟨false, cw, p⟩ topic now req store log =
      { response := httpError "missing required fields" 400
        store := store
        log := log } := by
  simp only [handleSingle, idempotencyWrap, requireAuth, requireAnyRole,
    ingestTransactionHandler, hkey, hmiss, hauth, hrole, hbody, hfield,
    Bool.false_eq_true, if_false, if_true, httpError]
  rfl

/-- Cache miss, valid submission, failing publish: retryable 500, no
store write, no publish. -/
theorem handleSingle_publishFails (cw : Bool) (topic : String) (now : GoTime)
    (req : HttpRequest) (store : IdempotencyStore) (log : List KafkaMessage)
    (claims : AuthClaims) (r : TransactionRequest)
    (hkey : (req.idempotencyKeyHeader == "") = false)
    (hmiss : getIdempotencyKey store req.idempotencyKeyHeader = none)
    (hauth : req.auth = some claims)
    (hrole : claims.HasAnyRole ["teller", "admin"] = true)
    (hbody : req.singleBody = some r)
    (hk : (r.idempotency_key == "") = false)
    (ha : (r.account_id == "") = false)
    (hu : (r.user_id == "") = false) :
    handleSingle ⟨false, cw, true⟩ topic now req store log =
      { response := httpError "failed to enqueue transaction" 500
        store := store
        log := log } := by
  simp only [handleSingle, idempotencyWrap, requireAuth, requireAnyRole,
    ingestTransactionHandler, hkey, hmiss, hauth, hrole, hbody, hk, ha, hu,
    Bool.false_eq_true, if_false, Bool.or_self, Bool.false_or, if_true,
    httpError]
  rfl

/-- A failing store lookup is handled exactly like a miss: the response
and the published log are those of the same request served from a store
that does not hold the key. -/
theorem handleSingle_lookupFails (cw p : Bool) (topic : String) (now : GoTime)
    (req : HttpRequest) (store store2 : IdempotencyStore)
    (log : List KafkaMessage)
    (hmiss : getIdempotencyKey store2 req.idempotencyKeyHeader = none) :
    (handleSingle ⟨true, cw, p⟩ topic now req store log).response =
        (handleSingle ⟨false, cw, p⟩ topic now req store2 log).response ∧
      (handleSingle ⟨true, cw, p⟩ topic now req store log).log =
        (handleSingle ⟨false, cw, p⟩ topic now req store2 log).log := by
  simp only [handleSingle, idempotencyWrap, hmiss, Bool.false_eq_true,
    eq_self_iff_true, if_false, if_true]
  cases hk : (req.idempotencyKeyHeader == "") with
  | true => simp only [hk, if_true]; exact ⟨trivial, trivial⟩
  | false =>
    simp only [hk, Bool.false_eq_true, if_false]
    cases h2 : (200 ≤ (requireAuth (requireAnyRole ["teller", "admin"]
          (ingestTransactionHandler p topic now)) req log).1.statusCode &&
        (requireAuth (requireAnyRole ["teller", "admin"]
          (ingestTransactionHandler p topic now)) req log).1.statusCode < 300) with
    | true => simp only [h2, if_true]; exact ⟨trivial, trivial⟩
    | false => simp only [h2, Bool.false_eq_true, if_false]; exact ⟨trivial, trivial⟩

theorem buildTransactions_length (clock : Nat → GoTime) :
    ∀ (i : Nat) (rs : List TransactionRequest),
      (buildTransactions clock i rs).length = rs.length
  | _, [] => rfl
  | i, _ :: rs => by
    simp [buildTransactions, buildTransactions_length clock (i + 1) rs]

/-- Every transaction built by the batch loop is some batch item
converted at some clock sample; in particular it copies that item's
account identifier. -/
theorem mem_buildTransactions (clock : Nat → GoTime) :
    ∀ (i : Nat) (rs : List TransactionRequest) (txn : Transaction),
      txn ∈ buildTransactions clock i rs →
      ∃ r, r ∈ rs ∧ (∃ j, txn = buildTransaction (clock j) r) ∧
        txn.account_id = r.account_id
  | _, [], _, h => by cases h
  | i, r :: rs, txn, h => by
    rcases List.mem_cons.mp h with h | h
    · exact ⟨r, List.mem_cons_self r rs, ⟨i, h⟩, by rw [h]; rfl⟩
    · obtain ⟨r2, hmem, hj, hacc⟩ := mem_buildTransactions clock (i + 1) rs txn h
      exact ⟨r2, List.mem_cons_of_mem r hmem, hj, hacc⟩

/-- Fresh valid batch submission (healthy lookup and publish):
everything is published with no per-item validation, the answer is 202
with only an overall count. -/
theorem handleBatch_fresh (cw : Bool) (topic : String) (clock : Nat → GoTime)
    (req : HttpRequest) (store : IdempotencyStore) (log : List KafkaMessage)
    (claims : AuthClaims) (rs : List TransactionRequest)
    (hkey : (req.idempotencyKeyHeader == "") = false)
    (hmiss : getIdempotencyKey store req.idempotencyKeyHeader = none)
    (hauth : req.auth = some claims)
    (hrole : claims.HasRole "admin" = true)
    (hbody : req.batchBody = some rs)
    (hne : (rs.length == 0) = false) :
    handleBatch ⟨false, cw, false⟩ topic clock req store log =
      { response :=
          { statusCode := 202
            headers := [("Content-Type", "application/json")]
            body := .batchJson (buildTransactions clock 0 rs).length
              (clock rs.length) }
        store :=
          if cw then store
          else setIdempotencyKey store req.idempotencyKeyHeader
            { id := ""
              status := "success"
              message := "Transaction processed"
              timestamp := clock 0 }
        log := log ++ (buildTransactions clock 0 rs).map (publishMessage topic) } := by
  simp only [handleBatch, idempotencyWrap, requireAuth, requireRole,
    ingestBatchTransactionHandler, hkey, hmiss, hauth, hrole, hbody, hne,
    Bool.false_eq_true, if_false, if_true, extractID]
  rfl

/-! ### Where published messages can come from -/

theorem log_idempotencyWrap (lf cwf : Bool) (cacheNow : GoTime) (next : Handler)
    (req : HttpRequest) (store : IdempotencyStore) (log : List KafkaMessage) :
    (idempotencyWrap lf cwf cacheNow next req store log).log = log ∨
      (idempotencyWrap lf cwf cacheNow next req store log).log = (next req log).2 := by
  unfold idempotencyWrap
  cases hk : (req.idempotencyKeyHeader == "") with
  | true => simp only [hk, if_true]; exact Or.inl trivial
  | false =>
    simp only [hk, Bool.false_eq_true, if_false]
    cases hl : (if lf = true then (none : Option TransactionResponse)
        else getIdempotencyKey store req.idempotencyKeyHeader) with
    | some rec => simp only [hl]; exact Or.inl trivial
    | none =>
      simp only [hl]
      split
      · exact Or.inr rfl
      · exact Or.inr rfl

theorem log_requireAuth (next : Handler) (req : HttpRequest)
    (log : List KafkaMessage) :
    (requireAuth next req log).2 = log ∨
      (requireAuth next req log).2 = (next req log).2 := by
  unfold requireAuth
  cases req.auth <;> simp

theorem log_requireAnyRole (roles : List String) (next : Handler)
    (req : HttpRequest) (log : List KafkaMessage) :
    (requireAnyRole roles next req log).2 = log ∨
      (requireAnyRole roles next req log).2 = (next req log).2 := by
  unfold requireAnyRole
  cases req.auth with
  | none => exact Or.inl rfl
  | some claims =>
    by_cases h : claims.HasAnyRole roles = true
    · simp [h]
    · simp [h]

theorem log_requireRole (role : String) (next : Handler)
    (req : HttpRequest) (log : List KafkaMessage) :
    (requireRole role next req log).2 = log ∨
      (requireRole role next req log).2 = (next req log).2 := by
  unfold requireRole
  cases req.auth with
  | none => exact Or.inl rfl
  | some claims =>
    by_cases h : claims.HasRole role = true
    · simp [h]
    · simp [h]

/-- Everything the single-submission handler appends to the log is a
message keyed by the decoded body's account identifier. -/
theorem mem_log_ingestTransactionHandler (p : Bool) (topic : String)
    (now : GoTime) (req : HttpRequest) (log : List KafkaMessage)
    (msg : KafkaMessage)
    (h : msg ∈ (ingestTransactionHandler p topic now req log).2) :
    msg ∈ log ∨
      ∃ r, req.singleBody = some r ∧ msg.key = r.account_id := by
  unfold ingestTransactionHandler at h
  cases hb : req.singleBody with
  | none => rw [hb] at h; exact Or.inl h
  | some r =>
    rw [hb] at h
    simp only at h
    split at h
    · exact Or.inl h
    split at h
    · exact Or.inl h
    rcases List.mem_append.mp h with h | h
    · exact Or.inl h
    · refine Or.inr ⟨r, rfl, ?_⟩
      rw [List.mem_singleton.mp h]
      rfl

/-- Everything the batch handler appends to the log is a message keyed
by some batch item's account identifier. -/
theorem mem_log_ingestBatchTransactionHandler (p : Bool) (topic : String)
    (clock : Nat → GoTime) (req : HttpRequest) (log : List KafkaMessage)
    (msg : KafkaMessage)
    (h : msg ∈ (ingestBatchTransactionHandler p topic clock req log).2) :
    msg ∈ log ∨
      ∃ rs, req.batchBody = some rs ∧
        ∃ r, r ∈ rs ∧ msg.key = r.account_id := by
  unfold ingestBatchTransactionHandler at h
  cases hb : req.batchBody with
  | none => rw [hb] at h; exact Or.inl h
  | some rs =>
    rw [hb] at h
    simp only at h
    split at h
    · exact Or.inl h
    split at h
    · exact Or.inl h
    rcases List.mem_append.mp h with h | h
    · exact Or.inl h
    · obtain ⟨txn, htxn, hmsg⟩ := List.mem_map.mp h
      obtain ⟨r, hr, _, hacc⟩ := mem_buildTransactions clock 0 rs txn htxn
      refine Or.inr ⟨rs, rfl, r, hr, ?_⟩
      rw [← hmsg]
      exact hacc

/-! ### Claims -/

/-- Claim C1, counterexample.  The claim says a caller lacking all
required roles receives Forbidden before any idempotency-store lookup,
with no store read.  In the wired route the idempotency middleware is
OUTSIDE the auth middlewares: a role-less caller whose key is already
cached receives 200 with the cache-replay marker — the cached record,
read from the store, decides the response before any role check runs. -/
theorem C1_counterexample :
    viewerClaims.HasAnyRole ["teller", "admin"] = false ∧
      (handleSingle healthyEnv "transactions" sampleTime2
          ⟨"k1", some viewerClaims, some sampleBody, none⟩ storeWithK1
          []).response.statusCode = 200 ∧
      ¬ (handleSingle healthyEnv "transactions" sampleTime2
          ⟨"k1", some viewerClaims, some sampleBody, none⟩ storeWithK1
          []).response.statusCode = 403 ∧
      ("X-Idempotency-Cache", "true") ∈
        (handleSingle healthyEnv "transactions" sampleTime2
          ⟨"k1", some viewerClaims, some sampleBody, none⟩ storeWithK1
          []).response.headers := by
  decide

/-- Claim C1, amended.  Role enforcement runs strictly AFTER the
idempotency lookup.  For a caller lacking every required role: on a
cache miss the gateway returns Forbidden (403) and performs no store
write and no event-log publish (the store read has already happened);
on a cache hit it replays the cached response with status 200 and no
role check at all. -/
theorem C1_role_after_lookup (cw p : Bool) (topic : String) (now : GoTime)
    (req : HttpRequest) (store : IdempotencyStore) (log : List KafkaMessage)
    (claims : AuthClaims)
    (hkey : (req.idempotencyKeyHeader == "") = false)
    (hauth : req.auth = some claims)
    (hrole : claims.HasAnyRole ["teller", "admin"] = false) :
    (getIdempotencyKey store req.idempotencyKeyHeader = none →
      handleSingle ⟨false, cw, p⟩ topic now req store log =
        { response := httpError "Insufficient permissions" 403
          store := store
          log := log }) ∧
    (∀ rec : TransactionResponse,
      getIdempotencyKey store req.idempotencyKeyHeader = some rec →
      handleSingle ⟨false, cw, p⟩ topic now req store log =
        { response :=
            { statusCode := 200
              headers :=
                [("Content-Type", "application/json"),
                  ("X-Idempotency-Cache", "true")]
              body := .jsonResp rec }
          store := store
          log := log }) := by
  constructor
  · intro hmiss
    exact handleSingle_forbidden cw p topic now req store log claims hkey hmiss
      hauth hrole
  · intro rec hhit
    exact handleSingle_hit cw p topic now req store log rec hkey hhit

/-- Claim C1, witness: a concrete role-less caller on a cache miss gets
403 and leaves the store and log untouched. -/
theorem C1_witness :
    handleSingle ⟨false, false, false⟩ "transactions" sampleTime
        ⟨"k1", some viewerClaims, some sampleBody, none⟩ [] [] =
      { response := httpError "Insufficient permissions" 403
        store := []
        log := [] } :=
  (C1_role_after_lookup false false "transactions" sampleTime
    ⟨"k1", some viewerClaims, some sampleBody, none⟩ [] [] viewerClaims
    (by decide) rfl (by decide)).1 rfl

/-- Claim C2, counterexample.  The claim says a submission with amount
0 or negative fails as `MalformedSubmission` with no store access and
no publish.  The handler only checks that the three string fields are
non-empty: a submission with amount = -5 is accepted (202) and
published, and a success record is written to the store. -/
theorem C2_counterexample :
    negBody.amount = -5 ∧
      (handleSingle healthyEnv "transactions" sampleTime
          ⟨"k2", some tellerClaims, some negBody, none⟩ [] []).response.statusCode
        = 202 ∧
      (handleSingle healthyEnv "transactions" sampleTime
          ⟨"k2", some tellerClaims, some negBody, none⟩ [] []).log.length = 1 ∧
      (handleSingle healthyEnv "transactions" sampleTime
          ⟨"k2", some tellerClaims, some negBody, none⟩ [] []).store.length = 1 := by
  decide

/-- Claim C2, amended.  A submission missing the idempotency key,
account ID, or user ID is rejected with a 400 client error, with no
event-log publish and no store write — but this validation runs only
AFTER the idempotency-store lookup (the middleware wraps the handler).
Amount is not validated at all: with the three string fields present,
a submission with amount ≤ 0 is accepted (202) and published. -/
theorem C2_validation (cw : Bool) (topic : String) (now : GoTime)
    (req : HttpRequest) (store : IdempotencyStore) (log : List KafkaMessage)
    (claims : AuthClaims) (r : TransactionRequest)
    (hkey : (req.idempotencyKeyHeader == "") = false)
    (hmiss : getIdempotencyKey store req.idempotencyKeyHeader = none)
    (hauth : req.auth = some claims)
    (hrole : claims.HasAnyRole ["teller", "admin"] = true)
    (hbody : req.singleBody = some r) :
    ((r.idempotency_key == "" || r.account_id == "" || r.user_id == "") = true →
      ∀ p : Bool, handleSingle ⟨false, cw, p⟩ topic now req store log =
        { response := httpError "missing required fields" 400
          store := store
          log := log }) ∧
    ((r.idempotency_key == "") = false → (r.account_id == "") = false →
      (r.user_id == "") = false → r.amount ≤ 0 →
      handleSingle ⟨false, cw, false⟩ topic now req store log =
        { response := acceptedResponse now
          store :=
            if cw then store
            else setIdempotencyKey store req.idempotencyKeyHeader (cachedRecord now)
          log := log ++ [publishMessage topic (buildTransaction now r)] }) := by
  constructor
  · intro hfield p
    exact handleSingle_missingField cw p topic now req store log claims r hkey
      hmiss hauth hrole hbody hfield
  · intro hk ha hu _
    exact handleSingle_fresh cw topic now req store log claims r hkey hmiss
      hauth hrole hbody hk ha hu

/-- Claim C2, witness: the concrete amount = -5 submission is accepted
and published. -/
theorem C2_witness :
    handleSingle ⟨false, false, false⟩ "transactions" sampleTime
        ⟨"k2", some tellerClaims, some negBody, none⟩ [] [] =
      { response := acceptedResponse sampleTime
        store := setIdempotencyKey [] "k2" (cachedRecord sampleTime)
        log := [publishMessage "transactions" (buildTransaction sampleTime negBody)] } :=
  (C2_validation false "transactions" sampleTime
    ⟨"k2", some tellerClaims, some negBody, none⟩ [] [] tellerClaims negBody
    (by decide) rfl rfl (by decide) rfl).2 (by decide) (by decide) (by decide)
    (by decide)

/-- Claim C3 (confirmed): submitting the same (idempotency key, payload)
twice in sequence against healthy collaborators: the first submission is
freshly accepted, publishing exactly one event and caching a record
whose ID is the first transaction ID; the second submission replays that
record — same transaction ID, `X-Idempotency-Cache: true` marker — and
publishes nothing (the log after the second call is the log after the
first). -/
theorem C3_replay_same_id (topic : String) (now1 now2 : GoTime)
    (req : HttpRequest) (store : IdempotencyStore) (log : List KafkaMessage)
    (claims : AuthClaims) (r : TransactionRequest)
    (hkey : (req.idempotencyKeyHeader == "") = false)
    (hmiss : getIdempotencyKey store req.idempotencyKeyHeader = none)
    (hauth : req.auth = some claims)
    (hrole : claims.HasAnyRole ["teller", "admin"] = true)
    (hbody : req.singleBody = some r)
    (hk : (r.idempotency_key == "") = false)
    (ha : (r.account_id == "") = false)
    (hu : (r.user_id == "") = false) :
    handleSingle healthyEnv topic now1 req store log =
      { response := acceptedResponse now1
        store := setIdempotencyKey store req.idempotencyKeyHeader (cachedRecord now1)
        log := log ++ [publishMessage topic (buildTransaction now1 r)] } ∧
    handleSingle healthyEnv topic now2 req
        (setIdempotencyKey store req.idempotencyKeyHeader (cachedRecord now1))
        (log ++ [publishMessage topic (buildTransaction now1 r)]) =
      { response :=
          { statusCode := 200
            headers :=
              [("Content-Type", "application/json"),
                ("X-Idempotency-Cache", "true")]
            body := .jsonResp (cachedRecord now1) }
        store := setIdempotencyKey store req.idempotencyKeyHeader (cachedRecord now1)
        log := log ++ [publishMessage topic (buildTransaction now1 r)] } ∧
    (cachedRecord now1).id = generateTransactionID now1 ∧
    (acceptedResponse now1).body =
      .jsonResp ⟨generateTransactionID now1, "accepted",
        "Transaction queued for processing", now1⟩ := by
  refine ⟨?_, ?_, rfl, rfl⟩
  · exact handleSingle_fresh false topic now1 req store log claims r hkey hmiss
      hauth hrole hbody hk ha hu
  · exact handleSingle_hit false false topic now2 req _ _ (cachedRecord now1)
      hkey (getIdempotencyKey_set store req.idempotencyKeyHeader (cachedRecord now1))

/-- Claim C3, witness: the concrete double submission of `sampleReq`. -/
theorem C3_witness :
    handleSingle healthyEnv "transactions" sampleTime sampleReq [] [] =
      { response := acceptedResponse sampleTime
        store := setIdempotencyKey [] "k1" (cachedRecord sampleTime)
        log := [publishMessage "transactions" (buildTransaction sampleTime sampleBody)] } ∧
    handleSingle healthyEnv "transactions" sampleTime2 sampleReq
        (setIdempotencyKey [] "k1" (cachedRecord sampleTime))
        ([] ++ [publishMessage "transactions" (buildTransaction sampleTime sampleBody)]) =
      { response :=
          { statusCode := 200
            headers :=
              [("Content-Type", "application/json"),
                ("X-Idempotency-Cache", "true")]
            body := .jsonResp (cachedRecord sampleTime) }
        store := setIdempotencyKey [] "k1" (cachedRecord sampleTime)
        log := [publishMessage "transactions" (buildTransaction sampleTime sampleBody)] } := by
  have h := C3_replay_same_id "transactions" sampleTime sampleTime2 sampleReq
    [] [] tellerClaims sampleBody (by decide) rfl rfl (by decide) rfl
    (by decide) (by decide) (by decide)
  exact ⟨h.1, h.2.1⟩

/-- Claim C4, counterexample.  The claim says batch items are validated
independently, the amount = -5 item is reported as malformed, and the
accepted count is 2.  The batch handler validates nothing per item: all
three items (including the amount = -5 one) are published, the response
carries no per-item outcomes — only an overall count, and that count is
3. -/
theorem C4_counterexample :
    negBody.amount = -5 ∧
      (handleBatch healthyEnv "transactions" (fun _ => sampleTime) batchReq
          [] []).response.statusCode = 202 ∧
      (handleBatch healthyEnv "transactions" (fun _ => sampleTime) batchReq
          [] []).response.body = .batchJson 3 sampleTime ∧
      (handleBatch healthyEnv "transactions" (fun _ => sampleTime) batchReq
          [] []).log.map (fun m => m.value.amount) = [25, -5, 75] := by
  decide

/-- Claim C4, amended.  The batch endpoint rejects only an undecodable
or empty list.  For any decodable non-empty batch (admin caller, cache
miss, healthy publish) every item is converted and published with NO
per-item validation and no per-item outcome reporting: the response is a
single 202 whose only aggregate is the overall count, and that count
equals the full batch length — malformed items included. -/
theorem C4_batch_no_item_validation (cw : Bool) (topic : String)
    (clock : Nat → GoTime) (req : HttpRequest) (store : IdempotencyStore)
    (log : List KafkaMessage) (claims : AuthClaims)
    (rs : List TransactionRequest)
    (hkey : (req.idempotencyKeyHeader == "") = false)
    (hmiss : getIdempotencyKey store req.idempotencyKeyHeader = none)
    (hauth : req.auth = some claims)
    (hrole : claims.HasRole "admin" = true)
    (hbody : req.batchBody = some rs)
    (hne : (rs.length == 0) = false) :
    handleBatch ⟨false, cw, false⟩ topic clock req store log =
      { response :=
          { statusCode := 202
            headers := [("Content-Type", "application/json")]
            body := .batchJson (buildTransactions clock 0 rs).length
              (clock rs.length) }
        store :=
          if cw then store
          else setIdempotencyKey store req.idempotencyKeyHeader
            ⟨"", "success", "Transaction processed", clock 0⟩
        log := log ++ (buildTransactions clock 0 rs).map (publishMessage topic) } ∧
    (buildTransactions clock 0 rs).length = rs.length := by
  exact ⟨handleBatch_fresh cw topic clock req store log claims rs hkey hmiss
    hauth hrole hbody hne, buildTransactions_length clock 0 rs⟩

/-- Claim C4, witness: the concrete 3-item batch with the amount = -5
second item. -/
theorem C4_witness :
    handleBatch ⟨false, false, false⟩ "transactions" (fun _ => sampleTime)
        batchReq [] [] =
      { response :=
          { statusCode := 202
            headers := [("Content-Type", "application/json")]
            body := .batchJson
              (buildTransactions (fun _ => sampleTime) 0
                [batchItem1, negBody, batchItem3]).length
              sampleTime }
        store := setIdempotencyKey [] "kb"
          ⟨"", "success", "Transaction processed", sampleTime⟩
        log := (buildTransactions (fun _ => sampleTime) 0
          [batchItem1, negBody, batchItem3]).map (publishMessage "transactions") } ∧
    (buildTransactions (fun _ => sampleTime) 0
      [batchItem1, negBody, batchItem3]).length = 3 :=
  C4_batch_no_item_validation false "transactions" (fun _ => sampleTime)
    batchReq [] [] adminClaims [batchItem1, negBody, batchItem3]
    (by decide) rfl rfl (by decide) rfl (by decide)

/-- Claim C5 (confirmed): on both the single and the batch path, every
message the gateway appends to the event log has its partition key equal
to the corresponding submission body's account identifier (never the
idempotency key or the transaction ID, which are carried elsewhere in
the message); consequently two submissions with the same account
identifier — whatever their idempotency keys — are published under the
same partition key. -/
theorem C5_partition_key :
    (∀ (env : Env) (topic : String) (now : GoTime) (req : HttpRequest)
        (store : IdempotencyStore) (log : List KafkaMessage)
        (msg : KafkaMessage),
      msg ∈ (handleSingle env topic now req store log).log →
      msg ∈ log ∨ ∃ r, req.singleBody = some r ∧ msg.key = r.account_id) ∧
    (∀ (env : Env) (topic : String) (clock : Nat → GoTime) (req : HttpRequest)
        (store : IdempotencyStore) (log : List KafkaMessage)
        (msg : KafkaMessage),
      msg ∈ (handleBatch env topic clock req store log).log →
      msg ∈ log ∨ ∃ rs, req.batchBody = some rs ∧
        ∃ r, r ∈ rs ∧ msg.key = r.account_id) ∧
    (∀ (topic : String) (now1 now2 : GoTime) (r1 r2 : TransactionRequest),
      r1.account_id = r2.account_id →
      (publishMessage topic (buildTransaction now1 r1)).key =
        (publishMessage topic (buildTransaction now2 r2)).key) := by
  refine ⟨?_, ?_, ?_⟩
  · intro env topic now req store log msg hmem
    unfold handleSingle at hmem
    rcases log_idempotencyWrap env.lookupFails env.cacheWriteFails now
        (requireAuth (requireAnyRole ["teller", "admin"]
          (ingestTransactionHandler env.publishFails topic now)))
        req store log with h | h
    · rw [h] at hmem; exact Or.inl hmem
    · rw [h] at hmem
      rcases log_requireAuth _ req log with h2 | h2
      · rw [h2] at hmem; exact Or.inl hmem
      · rw [h2] at hmem
        rcases log_requireAnyRole ["teller", "admin"] _ req log with h3 | h3
        · rw [h3] at hmem; exact Or.inl hmem
        · rw [h3] at hmem
          exact mem_log_ingestTransactionHandler env.publishFails topic now req
            log msg hmem
  · intro env topic clock req store log msg hmem
    unfold handleBatch at hmem
    rcases log_idempotencyWrap env.lookupFails env.cacheWriteFails (clock 0)
        (requireAuth (requireRole "admin"
          (ingestBatchTransactionHandler env.publishFails topic clock)))
        req store log with h | h
    · rw [h] at hmem; exact Or.inl hmem
    · rw [h] at hmem
      rcases log_requireAuth _ req log with h2 | h2
      · rw [h2] at hmem; exact Or.inl hmem
      · rw [h2] at hmem
        rcases log_requireRole "admin" _ req log with h3 | h3
        · rw [h3] at hmem; exact Or.inl hmem
        · rw [h3] at hmem
          exact mem_log_ingestBatchTransactionHandler env.publishFails topic
            clock req log msg hmem
  · intro topic now1 now2 r1 r2 h
    exact h

/-- Claim C5, witness: the concrete accepted submission's published
message is keyed by its account identifier. -/
theorem C5_witness :
    publishMessage "transactions" (buildTransaction sampleTime sampleBody) ∈
        ([] : List KafkaMessage) ∨
      ∃ r, sampleReq.singleBody = some r ∧
        (publishMessage "transactions"
          (buildTransaction sampleTime sampleBody)).key = r.account_id :=
  C5_partition_key.1 healthyEnv "transactions" sampleTime sampleReq [] []
    (publishMessage "transactions" (buildTransaction sampleTime sampleBody))
    (by decide)

/-- Claim C6 (confirmed): when the event-log publish fails for a valid,
non-cached submission, the gateway answers with a retryable 500 server
error, publishes nothing, and writes no success record to the
idempotency store (the 500 is outside the 2xx range the middleware
caches). -/
theorem C6_publish_failure_not_cached (cw : Bool) (topic : String)
    (now : GoTime) (req : HttpRequest) (store : IdempotencyStore)
    (log : List KafkaMessage) (claims : AuthClaims) (r : TransactionRequest)
    (hkey : (req.idempotencyKeyHeader == "") = false)
    (hmiss : getIdempotencyKey store req.idempotencyKeyHeader = none)
    (hauth : req.auth = some claims)
    (hrole : claims.HasAnyRole ["teller", "admin"] = true)
    (hbody : req.singleBody = some r)
    (hk : (r.idempotency_key == "") = false)
    (ha : (r.account_id == "") = false)
    (hu : (r.user_id == "") = false) :
    handleSingle ⟨false, cw, true⟩ topic now req store log =
      { response := httpError "failed to enqueue transaction" 500
        store := store
        log := log } ∧
    (httpError "failed to enqueue transaction" 500).statusCode = 500 := by
  exact ⟨handleSingle_publishFails cw topic now req store log claims r hkey
    hmiss hauth hrole hbody hk ha hu, rfl⟩

/-- Claim C6, witness: concrete failing publish leaves the empty store
and empty log untouched and answers 500. -/
theorem C6_witness :
    handleSingle ⟨false, false, true⟩ "transactions" sampleTime sampleReq [] [] =
      { response := httpError "failed to enqueue transaction" 500
        store := []
        log := [] } :=
  (C6_publish_failure_not_cached false "transactions" sampleTime sampleReq
    [] [] tellerClaims sampleBody (by decide) rfl rfl (by decide) rfl
    (by decide) (by decide) (by decide)).1

/-- Claim C7, counterexample.  The claim says a replay carries the same
status as the original acceptance response.  Concretely the original
acceptance answers 202 with body status `"accepted"`, while the replay
answers 200 with body status `"success"` (the fixed string written at
cache time) — the transaction ID matches but the status does not. -/
theorem C7_counterexample :
    (handleSingle healthyEnv "transactions" sampleTime sampleReq [] []
        ).response.statusCode = 202 ∧
      (handleSingle healthyEnv "transactions" sampleTime sampleReq [] []
        ).response.body = .jsonResp ⟨generateTransactionID sampleTime,
          "accepted", "Transaction queued for processing", sampleTime⟩ ∧
      (handleSingle healthyEnv "transactions" sampleTime2 sampleReq
          (handleSingle healthyEnv "transactions" sampleTime sampleReq [] []).store
          (handleSingle healthyEnv "transactions" sampleTime sampleReq [] []).log
        ).response.statusCode = 200 ∧
      (handleSingle healthyEnv "transactions" sampleTime2 sampleReq
          (handleSingle healthyEnv "transactions" sampleTime sampleReq [] []).store
          (handleSingle healthyEnv "transactions" sampleTime sampleReq [] []).log
        ).response.body = .jsonResp ⟨generateTransactionID sampleTime,
          "success", "Transaction processed", sampleTime⟩ ∧
      ¬ (("success" : String) = "accepted") ∧ ¬ ((200 : Nat) = 202) := by
  decide

/-- Claim C7, amended.  A replay of a cached prior acceptance returns
the cached record with the SAME transaction ID as the original
acceptance and the cache-hit marker, but its status differs from the
original acceptance response: the replay is HTTP 200 with body status
`"success"` (stamped when the record was cached), whereas the original
was HTTP 202 with body status `"accepted"`. -/
theorem C7_replay_content (topic : String) (now1 now2 : GoTime)
    (req : HttpRequest) (store : IdempotencyStore) (log : List KafkaMessage)
    (claims : AuthClaims) (r : TransactionRequest)
    (hkey : (req.idempotencyKeyHeader == "") = false)
    (hmiss : getIdempotencyKey store req.idempotencyKeyHeader = none)
    (hauth : req.auth = some claims)
    (hrole : claims.HasAnyRole ["teller", "admin"] = true)
    (hbody : req.singleBody = some r)
    (hk : (r.idempotency_key == "") = false)
    (ha : (r.account_id == "") = false)
    (hu : (r.user_id == "") = false) :
    (handleSingle healthyEnv topic now1 req store log).response.statusCode
        = 202 ∧
    (handleSingle healthyEnv topic now1 req store log).response.body
        = .jsonResp ⟨generateTransactionID now1, "accepted",
            "Transaction queued for processing", now1⟩ ∧
    (handleSingle healthyEnv topic now2 req
        (handleSingle healthyEnv topic now1 req store log).store
        (handleSingle healthyEnv topic now1 req store log).log
      ).response.statusCode = 200 ∧
    ("X-Idempotency-Cache", "true") ∈
      (handleSingle healthyEnv topic now2 req
        (handleSingle healthyEnv topic now1 req store log).store
        (handleSingle healthyEnv topic now1 req store log).log
      ).response.headers ∧
    (handleSingle healthyEnv topic now2 req
        (handleSingle healthyEnv topic now1 req store log).store
        (handleSingle healthyEnv topic now1 req store log).log
      ).response.body = .jsonResp ⟨generateTransactionID now1, "success",
          "Transaction processed", now1⟩ := by
  have h1 := handleSingle_fresh false topic now1 req store log claims r hkey
    hmiss hauth hrole hbody hk ha hu
  unfold healthyEnv
  rw [h1]
  dsimp only
  simp only [Bool.false_eq_true, if_false]
  have h2 := handleSingle_hit false false topic now2 req
    (setIdempotencyKey store req.idempotencyKeyHeader (cachedRecord now1))
    (log ++ [publishMessage topic (buildTransaction now1 r)])
    (cachedRecord now1) hkey
    (getIdempotencyKey_set store req.idempotencyKeyHeader (cachedRecord now1))
  rw [h2]
  refine ⟨rfl, rfl, rfl, ?_, rfl⟩
  dsimp only
  decide

/-- Claim C7, witness: the concrete double submission — original 202
`"accepted"`, replay 200 `"success"` carrying the original ID and the
marker. -/
theorem C7_witness :
    (handleSingle healthyEnv "transactions" sampleTime sampleReq []
        []).response.statusCode = 202 ∧
    (handleSingle healthyEnv "transactions" sampleTime sampleReq []
        []).response.body = .jsonResp ⟨generateTransactionID sampleTime,
          "accepted", "Transaction queued for processing", sampleTime⟩ ∧
    (handleSingle healthyEnv "transactions" sampleTime2 sampleReq
        (handleSingle healthyEnv "transactions" sampleTime sampleReq [] []).store
        (handleSingle healthyEnv "transactions" sampleTime sampleReq [] []).log
      ).response.statusCode = 200 ∧
    ("X-Idempotency-Cache", "true") ∈
      (handleSingle healthyEnv "transactions" sampleTime2 sampleReq
        (handleSingle healthyEnv "transactions" sampleTime sampleReq [] []).store
        (handleSingle healthyEnv "transactions" sampleTime sampleReq [] []).log
      ).response.headers ∧
    (handleSingle healthyEnv "transactions" sampleTime2 sampleReq
        (handleSingle healthyEnv "transactions" sampleTime sampleReq [] []).store
        (handleSingle healthyEnv "transactions" sampleTime sampleReq [] []).log
      ).response.body = .jsonResp ⟨generateTransactionID sampleTime,
          "success", "Transaction processed", sampleTime⟩ :=
  C7_replay_content "transactions" sampleTime sampleTime2 sampleReq [] []
    tellerClaims sampleBody (by decide) rfl rfl (by decide) rfl (by decide)
    (by decide) (by decide)

/-- Claim C8 (confirmed): two degraded-store behaviours.  First, when
the idempotency-store lookup fails, the request is served exactly as a
cache miss — its response and its event-log effect coincide with those
of the same request against a store that does not hold the key.  Second,
when the cache write fails after a successful publish, the submission is
still answered 202 accepted, the event stays in the log, and only the
store write is lost. -/
theorem C8_store_degradation (cw p : Bool) (topic : String) (now : GoTime)
    (req : HttpRequest) (store store2 : IdempotencyStore)
    (log : List KafkaMessage) (claims : AuthClaims) (r : TransactionRequest)
    (hkey : (req.idempotencyKeyHeader == "") = false)
    (hmiss2 : getIdempotencyKey store2 req.idempotencyKeyHeader = none)
    (hmiss : getIdempotencyKey store req.idempotencyKeyHeader = none)
    (hauth : req.auth = some claims)
    (hrole : claims.HasAnyRole ["teller", "admin"] = true)
    (hbody : req.singleBody = some r)
    (hk : (r.idempotency_key == "") = false)
    (ha : (r.account_id == "") = false)
    (hu : (r.user_id == "") = false) :
    ((handleSingle ⟨true, cw, p⟩ topic now req store log).response =
        (handleSingle ⟨false, cw, p⟩ topic now req store2 log).response ∧
      (handleSingle ⟨true, cw, p⟩ topic now req store log).log =
        (handleSingle ⟨false, cw, p⟩ topic now req store2 log).log) ∧
    handleSingle ⟨false, true, false⟩ topic now req store log =
      { response := acceptedResponse now
        store := store
        log := log ++ [publishMessage topic (buildTransaction now r)] } := by
  constructor
  · exact handleSingle_lookupFails cw p topic now req store store2 log hmiss2
  · have h := handleSingle_fresh true topic now req store log claims r hkey
      hmiss hauth hrole hbody hk ha hu
    simpa using h

/-- Claim C8, witness: concretely, a failing lookup serves `sampleReq`
identically to an empty store, and a failing cache write still yields
202 with the event in the log and the store unchanged. -/
theorem C8_witness :
    ((handleSingle ⟨true, false, false⟩ "transactions" sampleTime sampleReq
          storeOther []).response =
        (handleSingle ⟨false, false, false⟩ "transactions" sampleTime
          sampleReq [] []).response ∧
      (handleSingle ⟨true, false, false⟩ "transactions" sampleTime sampleReq
          storeOther []).log =
        (handleSingle ⟨false, false, false⟩ "transactions" sampleTime
          sampleReq [] []).log) ∧
    handleSingle ⟨false, true, false⟩ "transactions" sampleTime sampleReq
        storeOther [] =
      { response := acceptedResponse sampleTime
        store := storeOther
        log := [publishMessage "transactions"
          (buildTransaction sampleTime sampleBody)] } :=
  C8_store_degradation false false "transactions" sampleTime sampleReq
    storeOther [] [] tellerClaims sampleBody (by decide) rfl (by decide)
    rfl (by decide) rfl (by decide) (by decide) (by decide)

/-- Claim C9, counterexample.  The claim says any two distinct
acceptance events (including two items within one batch) receive
distinct transaction IDs.  The generator is `"txn_" + wall-clock
format` with no entropy: in a 3-item batch whose conversion loop
samples the same nanosecond for every item, three distinct submissions
(distinct idempotency keys and account IDs) all receive the SAME
transaction ID. -/
theorem C9_counterexample :
    (handleBatch healthyEnv "transactions" (fun _ => sampleTime) batchReq
        [] []).log.map (fun m => m.value.id) =
      [generateTransactionID sampleTime, generateTransactionID sampleTime,
        generateTransactionID sampleTime] ∧
    ¬ (batchItem1.idempotency_key = negBody.idempotency_key) ∧
    ¬ (batchItem1.account_id = batchItem3.account_id) := by
  decide

/-- Claim C9, amended.  `generateTransactionID` is a pure function of
the sampled wall clock with no entropy component: two acceptance events
sampled at the same nanosecond receive identical IDs, so uniqueness
holds only between events with distinct clock samples; for those, IDs
are strictly monotone — an event sampled chronologically earlier
receives a strictly smaller ID in string order (hence also a distinct
one). -/
theorem C9_id_clock_monotone :
    (∀ t1 t2 : GoTime, t1 = t2 →
      generateTransactionID t1 = generateTransactionID t2) ∧
    (∀ t1 t2 : GoTime, t1.Valid → t2.Valid → t1.Earlier t2 →
      generateTransactionID t1 < generateTransactionID t2) ∧
    (∀ t1 t2 : GoTime, t1.Valid → t2.Valid → t1.Earlier t2 →
      ¬ (generateTransactionID t1 = generateTransactionID t2)) := by
  refine ⟨fun t1 t2 h => congrArg generateTransactionID h, ?_, ?_⟩
  · intro t1 t2 _ h2 h
    exact generateTransactionID_lt h2 h
  · intro t1 t2 _ h2 h
    exact ne_of_lt (generateTransactionID_lt h2 h)

/-- Claim C9, witness: the two concrete clock samples one second apart
give strictly ordered, distinct IDs. -/
theorem C9_witness :
    generateTransactionID sampleTime < generateTransactionID sampleTime2 :=
  C9_id_clock_monotone.2.1 sampleTime sampleTime2 (by decide) (by decide)
    (by decide)

/-- Claim C10 (confirmed): a cache replay is answered with HTTP 200 and
the `X-Idempotency-Cache: true` header, while a fresh acceptance is
answered with HTTP 202 and without that header — so the status code
alone (200 vs 202) already distinguishes replay from fresh acceptance. -/
theorem C10_status_distinguishes_replay :
    (∀ (cw p : Bool) (topic : String) (now : GoTime) (req : HttpRequest)
        (store : IdempotencyStore) (log : List KafkaMessage)
        (rec : TransactionResponse),
      (req.idempotencyKeyHeader == "") = false →
      getIdempotencyKey store req.idempotencyKeyHeader = some rec →
      (handleSingle ⟨false, cw, p⟩ topic now req store log).response.statusCode
          = 200 ∧
        ("X-Idempotency-Cache", "true") ∈
          (handleSingle ⟨false, cw, p⟩ topic now req store log).response.headers) ∧
    (∀ (cw : Bool) (topic : String) (now : GoTime) (req : HttpRequest)
        (store : IdempotencyStore) (log : List KafkaMessage)
        (claims : AuthClaims) (r : TransactionRequest),
      (req.idempotencyKeyHeader == "") = false →
      getIdempotencyKey store req.idempotencyKeyHeader = none →
      req.auth = some claims →
      claims.HasAnyRole ["teller", "admin"] = true →
      req.singleBody = some r →
      (r.idempotency_key == "") = false →
      (r.account_id == "") = false →
      (r.user_id == "") = false →
      (handleSingle ⟨false, cw, false⟩ topic now req store log).response.statusCode
          = 202 ∧
        ¬ ("X-Idempotency-Cache", "true") ∈
          (handleSingle ⟨false, cw, false⟩ topic now req store
            log).response.headers) ∧
    ¬ ((200 : Nat) = 202) := by
  refine ⟨?_, ?_, by decide⟩
  · intro cw p topic now req store log rec hkey hhit
    rw [handleSingle_hit cw p topic now req store log rec hkey hhit]
    exact ⟨rfl, by dsimp only; decide⟩
  · intro cw topic now req store log claims r hkey hmiss hauth hrole hbody hk
      ha hu
    rw [handleSingle_fresh cw topic now req store log claims r hkey hmiss
      hauth hrole hbody hk ha hu]
    exact ⟨rfl, by dsimp only [acceptedResponse]; decide⟩

/-- Claim C10, witness: replay of the concrete cached record answers
200 with the marker. -/
theorem C10_witness :
    (handleSingle ⟨false, false, false⟩ "transactions" sampleTime2
        ⟨"k1", some tellerClaims, some sampleBody, none⟩ storeWithK1
        []).response.statusCode = 200 ∧
      ("X-Idempotency-Cache", "true") ∈
        (handleSingle ⟨false, false, false⟩ "transactions" sampleTime2
          ⟨"k1", some tellerClaims, some sampleBody, none⟩ storeWithK1
          []).response.headers :=
  C10_status_distinguishes_replay.1 false false "transactions" sampleTime2
    ⟨"k1", some tellerClaims, some sampleBody, none⟩ storeWithK1 []
    ⟨"txn_20250314092653.589793238", "success", "Transaction processed",
      sampleTime⟩ (by decide) (by decide)

end TxMon
